import Mathlib

/-!
Verification of the x/84 terminal-widget core: the scrolling pager
(x84/bbs/pager.py) and the two-state lightbar selector (x84/bbs/selector.py).

Python unicode strings are modelled as lists of characters (`Str`), so all
text operations are executable by the kernel.  The externally supplied
collaborators (the AnsiWindow geometry and rendering primitives, the blessed
terminal capabilities, and the pipe-codec) are bundled into an `Env`
parameter: the widgets consume them as given, exactly as the source does.
-/

/-- Python unicode string, modelled as a list of characters. -/
abbrev Str := List Char

/-- A key as stored in a KeySet entry: either a (possibly multi-character)
unicode string, or a terminal named-key code (an integer constant such as
term.KEY_HOME). -/
inductive Key where
  | str (s : Str)
  | code (n : Int)
deriving DecidableEq, Repr

/-- An input event as produced by the external input primitive: its textual
value plus, for named keys, an integer code (none for plain characters). -/
structure Keystroke where
  text : Str
  code : Option Int
deriving DecidableEq, Repr

/-- The event-resolution idiom shared by both widgets,
`keystroke = hasattr(keystroke, 'code') and keystroke.code or keystroke`:
when the event carries a truthy (present and non-zero) code, the code is
matched against the KeySet entries, otherwise the textual value is. -/
def resolveKey (k : Keystroke) : Key :=
  match k.code with
  | some c => if c ≠ 0 then Key.code c else Key.str k.text
  | none => Key.str k.text

/-- The external collaborators consumed by the widgets: AnsiWindow geometry
and primitives (`normal` via the terminal, `pos`, `align`, paddings and
visible dimensions), the terminal word-wrap primitive and named-key
constants, and the pipe-markup decoder.  These are parameters of the model,
not part of the verified core. -/
structure Env where
  normal : Str
  pos : Int → Int → Str
  align : Str → Str
  visibleHeight : Nat
  visibleWidth : Nat
  xpadding : Nat
  ypadding : Nat
  wrap : Str → Int → List Str
  decodePipe : Str → Str
  colorSelected : Str
  colorUnselected : Str
  keyHOME : Int
  keyEND : Int
  keyPGUP : Int
  keyPGDOWN : Int
  keyUP : Int
  keyDOWN : Int
  keyENTER : Int
  keyESCAPE : Int
  keyLEFT : Int
  keyRIGHT : Int
  keyREFRESH : Int

/-- Python list slice `l[i:j]` for integer bounds (negative indices count
from the end, out-of-range bounds are clamped). -/
def pySlice {α : Type} (l : List α) (i j : Int) : List α :=
  let n : Int := l.length
  let lo := (if i < 0 then max 0 (n + i) else min i n).toNat
  let hi := (if j < 0 then max 0 (n + j) else min j n).toNat
  (l.take hi).drop lo

/-- Python `str.splitlines()` (for newline-delimited text): a trailing
newline does not produce a final empty line, and the empty string yields no
lines. -/
def splitLinesAux : List Char → List Char → List Str
  | [], cur => if cur.isEmpty then [] else [cur.reverse]
  | c :: rest, cur =>
      if c = '\n' then cur.reverse :: splitLinesAux rest []
      else splitLinesAux rest (c :: cur)

/-- See `splitLinesAux`. -/
def pySplitLines (s : Str) : List Str := splitLinesAux s []

/-- Truthiness of Python `line.strip()`: true iff the line holds at least
one non-whitespace character. -/
def nonBlank (s : Str) : Bool := !s.all Char.isWhitespace

/-- The Pager's KeySet: one entry of accepted keys per logical action
(the dict VI_KEYSET after per-instance initialization). -/
structure PagerKeySet where
  refresh : List Key
  home : List Key
  end_ : List Key
  up : List Key
  down : List Key
  pgup : List Key
  pgdown : List Key
  exit : List Key
deriving DecidableEq, Repr

/-- State of a `Pager` (x84/bbs/pager.py): the wrapped line buffer
`_content`, the scroll offset `_position` with its `_position_last` shadow
and derived `moved` flag, the `_quit` flag, and the instance keyset. -/
structure Pager where
  content : List Str
  position : Int
  positionLast : Int
  moved : Bool
  quit : Bool
  keyset : PagerKeySet
deriving DecidableEq, Repr

/-- `Pager.bottom`: bottom-most position that contains content.  The source
computes `(hasattr(self, '_content') and len(self._content) or
self.visible_height)`; after construction `_content` always exists, so the
`or` falls back to `visible_height` exactly when the buffer is empty
(`len` equal to zero is falsy). -/
def Pager.bottom (env : Env) (p : Pager) : Int :=
  let maximum : Int :=
    if p.content.length ≠ 0 then (p.content.length : Int) else (env.visibleHeight : Int)
  max 0 (maximum - (env.visibleHeight : Int))

/-- The `Pager.position` property setter: records the previous position,
clamps the requested position into `[0, bottom]`, and derives `moved`. -/
def Pager.setPosition (env : Env) (p : Pager) (pos : Int) : Pager :=
  let last := p.position
  let newPos := min (max 0 pos) (p.bottom env)
  { p with positionLast := last, position := newPos, moved := last ≠ newPos }

/-- `Pager.visible_content`: `self._content[position : position + visible_height]`. -/
def Pager.visibleContent (env : Env) (p : Pager) : List Str :=
  pySlice p.content p.position (p.position + (env.visibleHeight : Int))

/-- `Pager.refresh_row`: render one visible row (normal, cursor position,
aligned text, normal). -/
def Pager.refreshRow (env : Env) (p : Pager) (row : Nat) : Str :=
  let vc := p.visibleContent env
  let ucs := if row < vc.length then vc.getD row [] else []
  env.normal ++ env.pos ((row : Int) + (env.ypadding : Int)) (env.xpadding : Int)
    ++ env.align ucs ++ env.normal

/-- `Pager.refresh(start_row)`: render rows `start_row` up to the last
visible row, bracketed by `term.normal`. -/
def Pager.refresh (env : Env) (p : Pager) (startRow : Nat) : Str :=
  env.normal
    ++ (((List.range (p.visibleContent env).length).drop startRow).map
          (p.refreshRow env)).flatten
    ++ env.normal

/-- `Pager.move_home`: scroll to top; full refresh when the position moved,
empty string otherwise. -/
def Pager.moveHome (env : Env) (p : Pager) : Pager × Str :=
  let p := p.setPosition env 0
  if p.moved then (p, p.refresh env 0) else (p, [])

/-- `Pager.move_end`: scroll to `len(content) - visible_height` (the setter
clamps); full refresh when the position moved, empty string otherwise. -/
def Pager.moveEnd (env : Env) (p : Pager) : Pager × Str :=
  let p := p.setPosition env ((p.content.length : Int) - (env.visibleHeight : Int))
  if p.moved then (p, p.refresh env 0) else (p, [])

/-- `Pager.move_pgup(num)`: scroll up `num` pages. -/
def Pager.movePgup (env : Env) (p : Pager) (num : Int) : Pager × Str :=
  let p := p.setPosition env (p.position - num * (env.visibleHeight : Int))
  if p.moved then (p, p.refresh env 0) else (p, [])

/-- `Pager.move_pgdown(num)`: scroll down `num` pages. -/
def Pager.movePgdown (env : Env) (p : Pager) (num : Int) : Pager × Str :=
  let p := p.setPosition env (p.position + num * (env.visibleHeight : Int))
  if p.moved then (p, p.refresh env 0) else (p, [])

/-- `Pager.move_down(num)`: scroll down `num` rows. -/
def Pager.moveDown (env : Env) (p : Pager) (num : Int) : Pager × Str :=
  let p := p.setPosition env (p.position + num)
  if p.moved then (p, p.refresh env 0) else (p, [])

/-- `Pager.move_up(num)`: scroll up `num` rows. -/
def Pager.moveUp (env : Env) (p : Pager) (num : Int) : Pager × Str :=
  let p := p.setPosition env (p.position - num)
  if p.moved then (p, p.refresh env 0) else (p, [])

/-- `Pager.process_keystroke`: reset `moved`, resolve the event's code, and
dispatch on KeySet membership in the source's fixed order; an `exit` match
sets `_quit` and leaves the returned string empty, and an unmatched key
falls through to the empty string. -/
def Pager.processKeystroke (env : Env) (p : Pager) (ks : Keystroke) : Pager × Str :=
  let p := { p with moved := false }
  let k := resolveKey ks
  if k ∈ p.keyset.refresh then (p, p.refresh env 0)
  else if k ∈ p.keyset.up then p.moveUp env 1
  else if k ∈ p.keyset.down then p.moveDown env 1
  else if k ∈ p.keyset.home then p.moveHome env
  else if k ∈ p.keyset.end_ then p.moveEnd env
  else if k ∈ p.keyset.pgup then p.movePgup env 1
  else if k ∈ p.keyset.pgdown then p.movePgdown env 1
  else if k ∈ p.keyset.exit then ({ p with quit := true }, [])
  else (p, [])

/-- Loop of `Pager._content_wrap` over the split source lines: a line with
any non-whitespace character is word-wrapped by the terminal's `wrap`
primitive at width `visible_width - 1`, a blank line contributes exactly
one empty line. -/
def contentWrapLines (env : Env) : List Str → List Str
  | [] => []
  | line :: rest =>
      (if nonBlank line then env.wrap line ((env.visibleWidth : Int) - 1) else [[]])
        ++ contentWrapLines env rest

/-- `Pager._content_wrap(ucs)`. -/
def contentWrap (env : Env) (ucs : Str) : List Str :=
  contentWrapLines env (pySplitLines ucs)

/-- The `Pager.content` property setter: replace the whole buffer with the
wrap of the pipe-decoded text. -/
def Pager.setContent (env : Env) (p : Pager) (ucs : Str) : Pager :=
  { p with content := contentWrap env (env.decodePipe ucs) }

/-- `Pager.update(ucs)`: replace the buffer and return a full refresh. -/
def Pager.update (env : Env) (p : Pager) (ucs : Str) : Pager × Str :=
  let p := p.setContent env ucs
  (p, p.refresh env 0)

/-- `Pager.append(ucs)`: extend the buffer with the wrap of only the new
text, then `return self.move_end() or self.refresh(self.bottom)` (the
Python `or` falls back to the partial refresh when `move_end` returned an
empty, i.e. falsy, string). -/
def Pager.append (env : Env) (p : Pager) (ucs : Str) : Pager × Str :=
  let p := { p with content := p.content ++ contentWrap env (env.decodePipe ucs) }
  let me := p.moveEnd env
  (me.1, if me.2 ≠ [] then me.2 else me.1.refresh env ((me.1.bottom env).toNat))

/-- The Selector's KeySet: one entry of accepted keys per logical action
(the dict VI_KEYSET of x84/bbs/selector.py after per-instance
initialization). -/
structure SelectorKeySet where
  refresh : List Key
  toggle : List Key
  left : List Key
  right : List Key
  enter : List Key
  exit : List Key
deriving DecidableEq, Repr

/-- State of a `Selector` (x84/bbs/selector.py): the two endpoint display
values `_left`/`_right`, the current `_selection`, the `_moved`,
`_selected` and `_quit` flags, the fixed window width, and the instance
keyset. -/
structure Selector where
  left : Str
  right : Str
  selection : Str
  moved : Bool
  selected : Bool
  quit : Bool
  width : Nat
  keyset : SelectorKeySet
deriving DecidableEq, Repr

/-- Body of the `Selector.selection` property setter after its assertion
has passed: record `moved` and assign only on change. -/
def Selector.setSelection (s : Selector) (v : Str) : Selector :=
  if s.selection ≠ v then { s with moved := true, selection := v } else s

/-- The full `Selector.selection` property setter including its
`assert value in (self._left, self._right)`: `none` models the
AssertionError raised on a value that is neither endpoint. -/
def Selector.setSelectionChecked (s : Selector) (v : Str) : Option Selector :=
  if v = s.left ∨ v = s.right then some (s.setSelection v) else none

/-- The `Selector.left` property setter: plain assignment. -/
def Selector.setLeft (s : Selector) (v : Str) : Selector :=
  { s with left := v }

/-- The `Selector.right` property setter: plain assignment. -/
def Selector.setRight (s : Selector) (v : Str) : Selector :=
  { s with right := v }

/-- Python `str.center(width)` (CPython's margin split). -/
def pyCenter (s : Str) (w : Nat) : Str :=
  if w ≤ s.length then s
  else
    let marg := w - s.length
    let lft := marg / 2 + (marg &&& w &&& 1)
    List.replicate lft ' ' ++ s ++ List.replicate (marg - lft) ' '

/-- `Selector.refresh`: both halves rendered, the selected endpoint with
the selected color; the left half is centered in `ceil(width / 2)`
columns, the right half in `floor(width / 2)`. -/
def Selector.refresh (env : Env) (s : Selector) : Str :=
  let attrL := if s.selection = s.left then env.colorSelected else env.colorUnselected
  let attrR := if s.selection = s.right then env.colorSelected else env.colorUnselected
  env.pos 0 0 ++ env.normal ++ attrL ++ pyCenter s.left ((s.width + 1) / 2)
    ++ env.normal ++ attrR ++ pyCenter s.right (s.width / 2) ++ env.normal

/-- `Selector.move_right`: force selection right; render only on change. -/
def Selector.moveRight (env : Env) (s : Selector) : Selector × Str :=
  if s.selection ≠ s.right then
    let s := s.setSelection s.right
    (s, s.refresh env)
  else (s, [])

/-- `Selector.move_left`: force selection left; render only on change. -/
def Selector.moveLeft (env : Env) (s : Selector) : Selector × Str :=
  if s.selection ≠ s.left then
    let s := s.setSelection s.left
    (s, s.refresh env)
  else (s, [])

/-- `Selector.toggle`: flip the selection to the other endpoint and
unconditionally return the refresh render. -/
def Selector.toggle (env : Env) (s : Selector) : Selector × Str :=
  let s := if s.selection = s.left then s.setSelection s.right else s.setSelection s.left
  (s, s.refresh env)

/-- `Selector.process_keystroke`: reset `_moved`, resolve the event's
code, and dispatch on KeySet membership in the source's fixed order;
`exit` sets `_quit`, `enter` sets `_selected`, both falling through to the
empty return string, as does an unmatched key. -/
def Selector.processKeystroke (env : Env) (s : Selector) (ks : Keystroke) : Selector × Str :=
  let s := { s with moved := false }
  let k := resolveKey ks
  if k ∈ s.keyset.refresh then (s, s.refresh env)
  else if k ∈ s.keyset.left then s.moveLeft env
  else if k ∈ s.keyset.right then s.moveRight env
  else if k ∈ s.keyset.toggle then s.toggle env
  else if k ∈ s.keyset.exit then ({ s with quit := true }, [])
  else if k ∈ s.keyset.enter then ({ s with selected := true }, [])
  else (s, [])

/-- The logical Pager actions, for the spec-side description of the
dispatch priority. -/
inductive PagerAction where
  | refresh
  | up
  | down
  | home
  | end_
  | pgup
  | pgdown
  | exit
deriving DecidableEq, Repr

/-- Modelled from the spec: the fixed priority order
refresh, up, down, home, end, pgup, pgdown, exit. -/
def pagerPriority : List PagerAction :=
  [.refresh, .up, .down, .home, .end_, .pgup, .pgdown, .exit]

/-- The KeySet entry configured for a given Pager action. -/
def PagerKeySet.entry (ks : PagerKeySet) : PagerAction → List Key
  | .refresh => ks.refresh
  | .up => ks.up
  | .down => ks.down
  | .home => ks.home
  | .end_ => ks.end_
  | .pgup => ks.pgup
  | .pgdown => ks.pgdown
  | .exit => ks.exit

/-- The operation a matched Pager action invokes; the render string of the
matched operation is returned, and `exit` sets the quit flag returning
empty. -/
def Pager.perform (env : Env) (p : Pager) : PagerAction → Pager × Str
  | .refresh => (p, p.refresh env 0)
  | .up => p.moveUp env 1
  | .down => p.moveDown env 1
  | .home => p.moveHome env
  | .end_ => p.moveEnd env
  | .pgup => p.movePgup env 1
  | .pgdown => p.movePgdown env 1
  | .exit => ({ p with quit := true }, [])

/-- Modelled from the spec: resolve a key against the KeySet entries in
the fixed priority order, first match winning, and invoke the matched
operation; an unmatched key is a no-op returning empty. -/
def pagerDispatchSpec (env : Env) (p : Pager) (k : Key) : Pager × Str :=
  match pagerPriority.find? (fun a => decide (k ∈ p.keyset.entry a)) with
  | some a => p.perform env a
  | none => (p, [])

/-- Every key configured in any entry of a Pager KeySet. -/
def PagerKeySet.allKeys (ks : PagerKeySet) : List Key :=
  ks.refresh ++ ks.up ++ ks.down ++ ks.home ++ ks.end_ ++ ks.pgup ++ ks.pgdown ++ ks.exit

/-- Every key configured in any entry of a Selector KeySet. -/
def SelectorKeySet.allKeys (ks : SelectorKeySet) : List Key :=
  ks.refresh ++ ks.left ++ ks.right ++ ks.toggle ++ ks.exit ++ ks.enter

/-- One call of the six Pager navigation operations, with the integer
argument where the source accepts one. -/
inductive MoveOp where
  | up (num : Int)
  | down (num : Int)
  | pgup (num : Int)
  | pgdown (num : Int)
  | home
  | end_
deriving DecidableEq, Repr

/-- The state transition of one navigation call (its render string
dropped). -/
def Pager.applyMove (env : Env) (p : Pager) : MoveOp → Pager
  | .up n => (p.moveUp env n).1
  | .down n => (p.moveDown env n).1
  | .pgup n => (p.movePgup env n).1
  | .pgdown n => (p.movePgdown env n).1
  | .home => (p.moveHome env).1
  | .end_ => (p.moveEnd env).1

/-- A sequence of navigation calls, applied left to right. -/
def Pager.applyMoves (env : Env) (p : Pager) (ops : List MoveOp) : Pager :=
  ops.foldl (Pager.applyMove env) p

/-- Heap of Python list objects holding KeySet entries, indexed by cell
number: list identity is what a shallow `dict.copy()` preserves, and what
`list.append` mutates in place. -/
abbrev KeyCells := List (List Key)

/-- Dereference a cell (the Python list object's current value). -/
def cellGet (st : KeyCells) (i : Nat) : List Key := st.getD i []

/-- In-place `list.append` on the cell: every dict entry referring to this
cell observes the mutation. -/
def cellAppend (st : KeyCells) (i : Nat) (k : Key) : KeyCells :=
  st.set i (cellGet st i ++ [k])

/-- A Pager keyset dict as a mapping from action name to list object: a
shallow `dict.copy()` duplicates exactly this record, leaving the cell
numbers (the list identities) shared. -/
structure PagerKeyRefs where
  refresh : Nat
  home : Nat
  end_ : Nat
  up : Nat
  down : Nat
  pgup : Nat
  pgdown : Nat
  exit : Nat
deriving DecidableEq, Repr

/-- A Selector keyset dict as a mapping from action name to list object. -/
structure SelectorKeyRefs where
  refresh : Nat
  toggle : Nat
  left : Nat
  right : Nat
  enter : Nat
  exit : Nat
deriving DecidableEq, Repr

/-- The module-level VI_KEYSET of x84/bbs/pager.py: the initial contents of
the eight list objects (unichr(12) is form feed, unichr(27) escape). -/
def viPagerCells : KeyCells :=
  [ [Key.str ['\x0C']],
    [Key.str ['0']],
    [Key.str ['G']],
    [Key.str ['k'], Key.str ['K']],
    [Key.str ['j'], Key.str ['J'], Key.str ['\r']],
    [Key.str ['b'], Key.str ['B'], Key.str []],
    [Key.str ['f'], Key.str ['F'], Key.str []],
    [Key.str ['q'], Key.str ['Q'], Key.str ['\x1B']] ]

/-- The dict VI_KEYSET of x84/bbs/pager.py maps the action names to the
cells of `viPagerCells` in order. -/
def viPagerRefs : PagerKeyRefs :=
  { refresh := 0, home := 1, end_ := 2, up := 3, down := 4, pgup := 5, pgdown := 6, exit := 7 }

/-- The module-level VI_KEYSET of x84/bbs/selector.py: the initial contents
of the six list objects. -/
def viSelectorCells : KeyCells :=
  [ [Key.str ['\x0C']],
    [Key.str [' ']],
    [Key.str ['h']],
    [Key.str ['l']],
    [Key.str ['\r']],
    [Key.str ['q'], Key.str ['Q'], Key.str ['\x1B']] ]

/-- The dict VI_KEYSET of x84/bbs/selector.py maps the action names to the
cells of `viSelectorCells` in order. -/
def viSelectorRefs : SelectorKeyRefs :=
  { refresh := 0, toggle := 1, left := 2, right := 3, enter := 4, exit := 5 }

/-- `Pager.init_keystrokes(keyset)`: the terminal named-key constants are
appended, in source order, to the list objects the keyset dict refers to.
Called at construction with `VI_KEYSET.copy()`, whose entries are the
module table's own list objects. -/
def pagerInitKeystrokes (env : Env) (st : KeyCells) (refs : PagerKeyRefs) : KeyCells :=
  let st := cellAppend st refs.home (Key.code env.keyHOME)
  let st := cellAppend st refs.end_ (Key.code env.keyEND)
  let st := cellAppend st refs.pgup (Key.code env.keyPGUP)
  let st := cellAppend st refs.pgdown (Key.code env.keyPGDOWN)
  let st := cellAppend st refs.up (Key.code env.keyUP)
  let st := cellAppend st refs.down (Key.code env.keyDOWN)
  let st := cellAppend st refs.down (Key.code env.keyENTER)
  cellAppend st refs.exit (Key.code env.keyESCAPE)

/-- `Selector.init_keystrokes(keyset)`: same pattern as the Pager's. -/
def selectorInitKeystrokes (env : Env) (st : KeyCells) (refs : SelectorKeyRefs) : KeyCells :=
  let st := cellAppend st refs.refresh (Key.code env.keyREFRESH)
  let st := cellAppend st refs.left (Key.code env.keyLEFT)
  let st := cellAppend st refs.right (Key.code env.keyRIGHT)
  let st := cellAppend st refs.enter (Key.code env.keyENTER)
  cellAppend st refs.exit (Key.code env.keyESCAPE)

/-- Python whitespace-separated words of a string (split dropping empty
fields): the reference notion of word boundaries. -/
def pyWordsAux : List Char → List Char → List Str
  | [], cur => if cur.isEmpty then [] else [cur.reverse]
  | c :: rest, cur =>
      if c.isWhitespace then
        if cur.isEmpty then pyWordsAux rest [] else cur.reverse :: pyWordsAux rest []
      else pyWordsAux rest (c :: cur)

/-- See `pyWordsAux`. -/
def pyWords (s : Str) : List Str := pyWordsAux s []

/-- Modelled from the spec: the contract of the external `term.wrap(text,
width)` primitive on one source line — it yields at least one line, each
at most `w` characters, splitting at word boundaries (the concatenation of
the words of the output lines is the word sequence of the input). -/
abbrev IsWordWrap (w : Int) (s : Str) (ls : List Str) : Prop :=
  ls ≠ [] ∧ (∀ l ∈ ls, (l.length : Int) ≤ w) ∧ (ls.map pyWords).flatten = pyWords s

/-- A concrete environment for evaluating the model on test inputs: plain
marker strings for the terminal sequences, the identity pipe-codec, a
one-word-per-line wrap, and arbitrary distinct named-key codes. -/
def testEnv : Env :=
  { normal := ['N'],
    pos := fun _ _ => ['P'],
    align := fun s => s,
    visibleHeight := 3,
    visibleWidth := 11,
    xpadding := 1,
    ypadding := 1,
    wrap := fun s _ => pyWords s,
    decodePipe := fun s => s,
    colorSelected := ['S'],
    colorUnselected := ['U'],
    keyHOME := 1001, keyEND := 1002, keyPGUP := 1003, keyPGDOWN := 1004,
    keyUP := 1005, keyDOWN := 1006, keyENTER := 1007, keyESCAPE := 1008,
    keyLEFT := 1009, keyRIGHT := 1010, keyREFRESH := 1011 }

/-- A concrete Pager keyset (the VI defaults plus the `testEnv` named
keys, as after construction). -/
def testPagerKeySet : PagerKeySet :=
  { refresh := [Key.str ['\x0C']],
    home := [Key.str ['0'], Key.code 1001],
    end_ := [Key.str ['G'], Key.code 1002],
    up := [Key.str ['k'], Key.str ['K'], Key.code 1005],
    down := [Key.str ['j'], Key.str ['J'], Key.str ['\r'], Key.code 1006, Key.code 1007],
    pgup := [Key.str ['b'], Key.str ['B'], Key.str [], Key.code 1003],
    pgdown := [Key.str ['f'], Key.str ['F'], Key.str [], Key.code 1004],
    exit := [Key.str ['q'], Key.str ['Q'], Key.str ['\x1B'], Key.code 1008] }

/-- A concrete Selector keyset (the VI defaults plus the `testEnv` named
keys, as after construction). -/
def testSelectorKeySet : SelectorKeySet :=
  { refresh := [Key.str ['\x0C'], Key.code 1011],
    toggle := [Key.str [' ']],
    left := [Key.str ['h'], Key.code 1009],
    right := [Key.str ['l'], Key.code 1010],
    enter := [Key.str ['\r'], Key.code 1007],
    exit := [Key.str ['q'], Key.str ['Q'], Key.str ['\x1B'], Key.code 1008] }

/-- A concrete Pager with five single-character lines under the height-3
viewport of `testEnv`. -/
def testPager : Pager :=
  { content := [['a'], ['b'], ['c'], ['d'], ['e']],
    position := 0,
    positionLast := 0,
    moved := false,
    quit := false,
    keyset := testPagerKeySet }

/-- A concrete Selector in its initial state (selection is the left
endpoint). -/
def testSelector : Selector :=
  { left := ['Y'], right := ['N'], selection := ['Y'],
    moved := false, selected := false, quit := false,
    width := 10, keyset := testSelectorKeySet }

/-- A Selector with equal endpoints (the constructor accepts any pair of
display values, including identical ones). -/
def degenerateSelector : Selector :=
  { left := ['a'], right := ['a'], selection := ['a'],
    moved := false, selected := false, quit := false,
    width := 4, keyset := testSelectorKeySet }

/-- A Selector whose selection is no longer either endpoint: reached from
a well-formed state by the `left` property setter (see C10). -/
def strayedSelector : Selector :=
  ({ left := ['c'], right := ['b'], selection := ['c'],
     moved := false, selected := false, quit := false,
     width := 4, keyset := testSelectorKeySet } : Selector).setLeft ['a']

/-- A concrete unmatched keystroke: the plain character z is configured in
neither widget's keyset. -/
def strayKeystroke : Keystroke := { text := ['z'], code := none }

/-- The state of a Pager right after `Pager.append` has extended the
buffer (wrapping only the newly supplied, pipe-decoded text), before
`move_end` runs. -/
def pagerAppendBase (env : Env) (p : Pager) (ucs : Str) : Pager :=
  { p with content := p.content ++ contentWrap env (env.decodePipe ucs) }

/-- What the wrap of a single source line must look like inside the
output of `contentWrap` (see C7): a blank line yields exactly one empty
display line; a non-blank line yields one or more lines, each at most `w`
characters, carrying exactly the source line's words in order. -/
def WrapBlockOK (w : Int) (line : Str) (block : List Str) : Prop :=
  (nonBlank line = false → block = [[]]) ∧
  (nonBlank line = true → block ≠ [] ∧ (∀ l ∈ block, (l.length : Int) ≤ w) ∧
    (block.map pyWords).flatten = pyWords line)

/-- Concrete newline-delimited input for evaluating `contentWrap`: two
short word-lines around a blank line. -/
def wrapWitnessText : Str := "hello world\n\nok".data

theorem Pager.bottom_nonneg (env : Env) (p : Pager) : 0 ≤ p.bottom env := by
  unfold Pager.bottom
  dsimp only
  split <;> omega

theorem Pager.setPosition_content (env : Env) (p : Pager) (x : Int) :
    (p.setPosition env x).content = p.content := rfl

theorem Pager.setPosition_bottom (env : Env) (p : Pager) (x : Int) :
    (p.setPosition env x).bottom env = p.bottom env := rfl

theorem Pager.setPosition_position (env : Env) (p : Pager) (x : Int) :
    (p.setPosition env x).position = min (max 0 x) (p.bottom env) := rfl

/-- C5: for a Pager whose buffer holds N lines under a viewport of
visible_height H, the bottom property equals max(0, N - H); in particular
N ≤ H (including N = 0, where the source's truthiness fallback to
visible_height kicks in) yields bottom = 0. -/
theorem pager_bottom_eq_max (env : Env) (p : Pager) :
    p.bottom env = max 0 ((p.content.length : Int) - (env.visibleHeight : Int)) := by
  unfold Pager.bottom
  dsimp only
  split <;> omega

/-- C8: the selection property setter's assertion fires exactly on a value
that is neither the configured left nor right endpoint; under the
precondition that the value is one of the two endpoints it never fires. -/
theorem selection_setter_assert_iff (s : Selector) (v : Str) :
    s.setSelectionChecked v = none ↔ ¬(v = s.left ∨ v = s.right) := by
  unfold Selector.setSelectionChecked
  split <;> simp_all

/-- C2: constructing a widget from the default table does NOT yield an
owned keyset.  `VI_KEYSET.copy()` is a shallow dict copy, so the instance
keyset refers to the module table's own list objects; the construction-time
appends of the terminal named keys mutate the module-level default (first
conjunct per widget), and a second default construction appends the same
named key again into the list shared with the first instance and the
module table (second conjunct per widget). -/
theorem keyset_shallow_copy_leaks :
    (cellGet (pagerInitKeystrokes testEnv viPagerCells viPagerRefs) viPagerRefs.home
        ≠ cellGet viPagerCells viPagerRefs.home) ∧
    (cellGet (pagerInitKeystrokes testEnv
          (pagerInitKeystrokes testEnv viPagerCells viPagerRefs) viPagerRefs) viPagerRefs.home
        = [Key.str ['0'], Key.code testEnv.keyHOME, Key.code testEnv.keyHOME]) ∧
    (cellGet (selectorInitKeystrokes testEnv viSelectorCells viSelectorRefs) viSelectorRefs.left
        ≠ cellGet viSelectorCells viSelectorRefs.left) ∧
    (cellGet (selectorInitKeystrokes testEnv
          (selectorInitKeystrokes testEnv viSelectorCells viSelectorRefs) viSelectorRefs)
          viSelectorRefs.left
        = [Key.str ['h'], Key.code testEnv.keyLEFT, Key.code testEnv.keyLEFT]) := by
  decide

/-- C10 counterexample: with equal endpoints (left = right = "a") the
selection equals the old left endpoint and "b" is a different value, yet
after setting left to "b" the selection is still one of the two configured
endpoints — the claim's consequence fails as universally stated. -/
theorem endpoint_setter_claim_cex :
    degenerateSelector.selection = degenerateSelector.left ∧
    (['b'] : Str) ≠ degenerateSelector.left ∧
    ((degenerateSelector.setLeft ['b']).selection = (degenerateSelector.setLeft ['b']).left ∨
      (degenerateSelector.setLeft ['b']).selection = (degenerateSelector.setLeft ['b']).right) := by
  decide

/-- C10 (amended): the left and right property setters assign
unconditionally, never fail, and change no other field (in particular the
selection); consequently, when the selection equals the old left endpoint
and additionally differs from the right endpoint, setting left to a
different value leaves the selection outside the two configured
endpoints. -/
theorem endpoint_setters_unvalidated (s : Selector) (v : Str) :
    ((s.setLeft v).left = v ∧ (s.setLeft v).right = s.right ∧
      (s.setLeft v).selection = s.selection ∧ (s.setLeft v).selected = s.selected ∧
      (s.setLeft v).quit = s.quit ∧ (s.setLeft v).moved = s.moved ∧
      (s.setLeft v).keyset = s.keyset) ∧
    ((s.setRight v).right = v ∧ (s.setRight v).left = s.left ∧
      (s.setRight v).selection = s.selection ∧ (s.setRight v).selected = s.selected ∧
      (s.setRight v).quit = s.quit ∧ (s.setRight v).moved = s.moved ∧
      (s.setRight v).keyset = s.keyset) ∧
    (s.selection = s.left → s.selection ≠ s.right → v ≠ s.left →
      (s.setLeft v).selection ≠ (s.setLeft v).left ∧
      (s.setLeft v).selection ≠ (s.setLeft v).right) := by
  refine ⟨⟨rfl, rfl, rfl, rfl, rfl, rfl, rfl⟩, ⟨rfl, rfl, rfl, rfl, rfl, rfl, rfl⟩, ?_⟩
  intro h1 h2 h3
  unfold Selector.setLeft
  constructor
  · simpa using fun hc => h3 (h1 ▸ hc).symm
  · simpa using h2

/-- C10 witness: instantiation of the amended theorem at a concrete
Selector with distinct endpoints and a fresh value. -/
theorem endpoint_setters_unvalidated_witness :
    (testSelector.selection = testSelector.left ∧ testSelector.selection ≠ testSelector.right ∧
      (['z'] : Str) ≠ testSelector.left) ∧
    ((testSelector.setLeft ['z']).selection ≠ (testSelector.setLeft ['z']).left ∧
      (testSelector.setLeft ['z']).selection ≠ (testSelector.setLeft ['z']).right) :=
  ⟨by decide, (endpoint_setters_unvalidated testSelector ['z']).2.2 (by decide) (by decide) (by decide)⟩

theorem Pager.moveUp_fst (env : Env) (p : Pager) (n : Int) :
    (p.moveUp env n).1 = p.setPosition env (p.position - n) := by
  unfold Pager.moveUp; dsimp only; split <;> rfl

theorem Pager.moveDown_fst (env : Env) (p : Pager) (n : Int) :
    (p.moveDown env n).1 = p.setPosition env (p.position + n) := by
  unfold Pager.moveDown; dsimp only; split <;> rfl

theorem Pager.movePgup_fst (env : Env) (p : Pager) (n : Int) :
    (p.movePgup env n).1 = p.setPosition env (p.position - n * (env.visibleHeight : Int)) := by
  unfold Pager.movePgup; dsimp only; split <;> rfl

theorem Pager.movePgdown_fst (env : Env) (p : Pager) (n : Int) :
    (p.movePgdown env n).1 = p.setPosition env (p.position + n * (env.visibleHeight : Int)) := by
  unfold Pager.movePgdown; dsimp only; split <;> rfl

theorem Pager.moveHome_fst (env : Env) (p : Pager) :
    (p.moveHome env).1 = p.setPosition env 0 := by
  unfold Pager.moveHome; dsimp only; split <;> rfl

theorem Pager.moveEnd_fst (env : Env) (p : Pager) :
    (p.moveEnd env).1
      = p.setPosition env ((p.content.length : Int) - (env.visibleHeight : Int)) := by
  unfold Pager.moveEnd; dsimp only; split <;> rfl

theorem Pager.applyMove_range (env : Env) (p : Pager) (op : MoveOp) :
    0 ≤ (p.applyMove env op).position ∧
      (p.applyMove env op).position ≤ (p.applyMove env op).bottom env := by
  have hb := Pager.bottom_nonneg env p
  cases op <;>
    simp only [Pager.applyMove, Pager.moveUp_fst, Pager.moveDown_fst, Pager.movePgup_fst,
      Pager.movePgdown_fst, Pager.moveHome_fst, Pager.moveEnd_fst,
      Pager.setPosition_position, Pager.setPosition_bottom] <;>
    omega

theorem Pager.applyMoves_range_aux (env : Env) : ∀ (ops : List MoveOp) (p : Pager),
    0 ≤ p.position ∧ p.position ≤ p.bottom env →
    0 ≤ (p.applyMoves env ops).position ∧
      (p.applyMoves env ops).position ≤ (p.applyMoves env ops).bottom env
  | [], p, h => by simpa [Pager.applyMoves] using h
  | op :: rest, p, _ => by
      have h3 :=
        Pager.applyMoves_range_aux env rest (p.applyMove env op) (Pager.applyMove_range env p op)
      simpa [Pager.applyMoves] using h3

/-- C1: after any non-empty sequence of move_up / move_down / move_pgup /
move_pgdown / move_home / move_end calls with arbitrary integer arguments
(so after each individual call, instantiating the sequence with any
prefix), the position lies in [0, bottom]: the position setter silently
clamps every requested position, never erroring. -/
theorem pager_position_always_clamped (env : Env) (p : Pager) (ops : List MoveOp)
    (h : ops ≠ []) :
    0 ≤ (p.applyMoves env ops).position ∧
      (p.applyMoves env ops).position ≤ (p.applyMoves env ops).bottom env := by
  match ops, h with
  | op :: rest, _ =>
    have h3 :=
      Pager.applyMoves_range_aux env rest (p.applyMove env op) (Pager.applyMove_range env p op)
    simpa [Pager.applyMoves] using h3

/-- C1 witness: a concrete overshooting sequence on the five-line test
pager stays clamped. -/
theorem pager_position_always_clamped_witness :
    ([MoveOp.up (-7), MoveOp.pgdown 99, MoveOp.down (-5)] : List MoveOp) ≠ [] ∧
    (0 ≤ (testPager.applyMoves testEnv [MoveOp.up (-7), MoveOp.pgdown 99, MoveOp.down (-5)]).position ∧
      (testPager.applyMoves testEnv [MoveOp.up (-7), MoveOp.pgdown 99, MoveOp.down (-5)]).position ≤
        (testPager.applyMoves testEnv
            [MoveOp.up (-7), MoveOp.pgdown 99, MoveOp.down (-5)]).bottom testEnv) :=
  ⟨by decide, pager_position_always_clamped testEnv testPager _ (by decide)⟩

/-- C3: a keystroke (plain character, or keystroke object whose resolved
code is taken) that is a member of no configured KeySet entry makes
process_keystroke return the empty string and leave the widget state
unchanged: position, content and quit for the Pager; selection, selected
and quit for the Selector. -/
theorem unmatched_keystroke_is_noop (env : Env) (p : Pager) (s : Selector)
    (kp ks : Keystroke)
    (hp : resolveKey kp ∉ p.keyset.allKeys) (hs : resolveKey ks ∉ s.keyset.allKeys) :
    (p.processKeystroke env kp).2 = [] ∧
    (p.processKeystroke env kp).1.position = p.position ∧
    (p.processKeystroke env kp).1.content = p.content ∧
    (p.processKeystroke env kp).1.quit = p.quit ∧
    (s.processKeystroke env ks).2 = [] ∧
    (s.processKeystroke env ks).1.selection = s.selection ∧
    (s.processKeystroke env ks).1.selected = s.selected ∧
    (s.processKeystroke env ks).1.quit = s.quit := by
  have hp' : resolveKey kp ∉ p.keyset.refresh ∧ resolveKey kp ∉ p.keyset.up ∧
      resolveKey kp ∉ p.keyset.down ∧ resolveKey kp ∉ p.keyset.home ∧
      resolveKey kp ∉ p.keyset.end_ ∧ resolveKey kp ∉ p.keyset.pgup ∧
      resolveKey kp ∉ p.keyset.pgdown ∧ resolveKey kp ∉ p.keyset.exit := by
    simp only [PagerKeySet.allKeys, List.mem_append, not_or] at hp
    tauto
  have hs' : resolveKey ks ∉ s.keyset.refresh ∧ resolveKey ks ∉ s.keyset.left ∧
      resolveKey ks ∉ s.keyset.right ∧ resolveKey ks ∉ s.keyset.toggle ∧
      resolveKey ks ∉ s.keyset.exit ∧ resolveKey ks ∉ s.keyset.enter := by
    simp only [SelectorKeySet.allKeys, List.mem_append, not_or] at hs
    tauto
  obtain ⟨p1, p2, p3, p4, p5, p6, p7, p8⟩ := hp'
  obtain ⟨s1, s2, s3, s4, s5, s6⟩ := hs'
  unfold Pager.processKeystroke Selector.processKeystroke
  simp [p1, p2, p3, p4, p5, p6, p7, p8, s1, s2, s3, s4, s5, s6]

/-- C3 witness: the plain character z is unmatched in both test widgets
and is a no-op for both. -/
theorem unmatched_keystroke_is_noop_witness :
    (resolveKey strayKeystroke ∉ testPager.keyset.allKeys ∧
      resolveKey strayKeystroke ∉ testSelector.keyset.allKeys) ∧
    ((testPager.processKeystroke testEnv strayKeystroke).2 = [] ∧
      (testPager.processKeystroke testEnv strayKeystroke).1.position = testPager.position ∧
      (testPager.processKeystroke testEnv strayKeystroke).1.content = testPager.content ∧
      (testPager.processKeystroke testEnv strayKeystroke).1.quit = testPager.quit ∧
      (testSelector.processKeystroke testEnv strayKeystroke).2 = [] ∧
      (testSelector.processKeystroke testEnv strayKeystroke).1.selection = testSelector.selection ∧
      (testSelector.processKeystroke testEnv strayKeystroke).1.selected = testSelector.selected ∧
      (testSelector.processKeystroke testEnv strayKeystroke).1.quit = testSelector.quit) :=
  ⟨⟨by decide, by decide⟩,
    unmatched_keystroke_is_noop testEnv testPager testSelector strayKeystroke strayKeystroke
      (by decide) (by decide)⟩

/-- C9 counterexample: on a reachable Selector whose selection is neither
endpoint (left mutated from "c" to "a" while the selection stayed "c"),
toggle(); toggle() does not restore the original selection, so the claim
fails as stated over every Selector state. -/
theorem toggle_claim_cex :
    (((strayedSelector.toggle testEnv).1.toggle testEnv).1).selection
      ≠ strayedSelector.selection := by
  decide

/-- C9 (amended): for every Selector whose selection is one of the two
configured endpoints, toggle(); toggle() restores the original selection;
moreover every toggle() call unconditionally returns the refresh render of
the resulting state, a string that is non-empty whenever the
cursor-addressing prefix pos(0, 0) is non-empty. -/
theorem toggle_involution_on_endpoints (env : Env) (s : Selector)
    (h : s.selection = s.left ∨ s.selection = s.right) :
    (((s.toggle env).1.toggle env).1).selection = s.selection ∧
    (s.toggle env).2 = ((s.toggle env).1).refresh env ∧
    (env.pos 0 0 ≠ [] → (s.toggle env).2 ≠ []) := by
  refine ⟨?_, rfl, ?_⟩
  · unfold Selector.toggle Selector.setSelection
    dsimp only
    split_ifs <;> simp_all
  · intro hp
    have hpos : 0 < (env.pos 0 0).length := List.length_pos.mpr hp
    have hlen : 0 < ((s.toggle env).2).length := by
      have : (s.toggle env).2 = ((s.toggle env).1).refresh env := rfl
      rw [this]
      unfold Selector.refresh
      simp only [List.length_append]
      omega
    exact List.length_pos.mp hlen

/-- C9 witness: instantiation of the amended theorem at the concrete test
Selector (selection = left endpoint) under the test environment, whose
cursor-addressing primitive emits a non-empty sequence. -/
theorem toggle_involution_on_endpoints_witness :
    (testSelector.selection = testSelector.left ∨
      testSelector.selection = testSelector.right) ∧
    ((((testSelector.toggle testEnv).1.toggle testEnv).1).selection = testSelector.selection ∧
      (testSelector.toggle testEnv).2 = ((testSelector.toggle testEnv).1).refresh testEnv ∧
      (testEnv.pos 0 0 ≠ [] → (testSelector.toggle testEnv).2 ≠ [])) :=
  ⟨by decide, toggle_involution_on_endpoints testEnv testSelector (by decide)⟩

/-- C4: Pager.process_keystroke is exactly first-match dispatch over the
KeySet entries in the fixed priority order refresh, up, down, home, end,
pgup, pgdown, exit (after the moved-flag reset and event-code resolution
it performs first): the matched operation's render string is returned, and
an exit match sets the quit flag and returns the empty string, as
`Pager.perform` states. -/
theorem pager_dispatch_priority (env : Env) (p : Pager) (ks : Keystroke) :
    p.processKeystroke env ks
      = pagerDispatchSpec env { p with moved := false } (resolveKey ks) := by
  unfold Pager.processKeystroke pagerDispatchSpec pagerPriority
  dsimp only
  by_cases h1 : resolveKey ks ∈ p.keyset.refresh
  · simp [List.find?, PagerKeySet.entry, Pager.perform, h1]
  by_cases h2 : resolveKey ks ∈ p.keyset.up
  · simp [List.find?, PagerKeySet.entry, Pager.perform, h1, h2]
  by_cases h3 : resolveKey ks ∈ p.keyset.down
  · simp [List.find?, PagerKeySet.entry, Pager.perform, h1, h2, h3]
  by_cases h4 : resolveKey ks ∈ p.keyset.home
  · simp [List.find?, PagerKeySet.entry, Pager.perform, h1, h2, h3, h4]
  by_cases h5 : resolveKey ks ∈ p.keyset.end_
  · simp [List.find?, PagerKeySet.entry, Pager.perform, h1, h2, h3, h4, h5]
  by_cases h6 : resolveKey ks ∈ p.keyset.pgup
  · simp [List.find?, PagerKeySet.entry, Pager.perform, h1, h2, h3, h4, h5, h6]
  by_cases h7 : resolveKey ks ∈ p.keyset.pgdown
  · simp [List.find?, PagerKeySet.entry, Pager.perform, h1, h2, h3, h4, h5, h6, h7]
  by_cases h8 : resolveKey ks ∈ p.keyset.exit
  · simp [List.find?, PagerKeySet.entry, Pager.perform, h1, h2, h3, h4, h5, h6, h7, h8]
  · simp [List.find?, PagerKeySet.entry, Pager.perform, h1, h2, h3, h4, h5, h6, h7, h8]

theorem Pager.refresh_eq_nil_of_zero (env : Env) (p : Pager)
    (h : p.refresh env 0 = []) (n : Nat) : p.refresh env n = [] := by
  unfold Pager.refresh at h ⊢
  rw [List.drop_zero] at h
  simp only [List.append_eq_nil, List.flatten_eq_nil_iff] at h
  have hn : env.normal = [] := by tauto
  have hrows : ∀ x ∈ (List.range (p.visibleContent env).length).map (p.refreshRow env),
      x = ([] : Str) := by tauto
  rw [hn]
  simp only [List.nil_append, List.append_nil]
  rw [List.flatten_eq_nil_iff]
  intro x hx
  obtain ⟨i, hi, rfl⟩ := List.mem_map.mp hx
  exact hrows _ (List.mem_map.mpr ⟨i, List.mem_of_mem_drop hi, rfl⟩)

theorem Pager.moveEnd_snd (env : Env) (p : Pager) :
    (p.moveEnd env).2
      = if (p.moveEnd env).1.moved then (p.moveEnd env).1.refresh env 0 else [] := by
  unfold Pager.moveEnd
  dsimp only
  split
  · next h => simp [h]
  · next h => simp [h]

theorem Pager.append_unfold (env : Env) (p : Pager) (ucs : Str) :
    p.append env ucs
      = (((pagerAppendBase env p ucs).moveEnd env).1,
         if ((pagerAppendBase env p ucs).moveEnd env).2 ≠ []
         then ((pagerAppendBase env p ucs).moveEnd env).2
         else ((pagerAppendBase env p ucs).moveEnd env).1.refresh env
                ((((pagerAppendBase env p ucs).moveEnd env).1.bottom env).toNat)) := rfl

/-- C6: append wraps only the newly supplied (pipe-decoded) text and
appends it to the existing buffer without re-wrapping prior lines; the
returned string is move_end's full refresh when moving to end changed the
position, and otherwise the partial refresh(bottom) covering only the
newly revealed rows.  (When the full refresh renders as the empty string
the two readings coincide, since then every row renders empty.) -/
theorem pager_append_spec (env : Env) (p : Pager) (ucs : Str) :
    (p.append env ucs).1.content = p.content ++ contentWrap env (env.decodePipe ucs) ∧
    p.append env ucs
      = (((pagerAppendBase env p ucs).moveEnd env).1,
         if ((pagerAppendBase env p ucs).moveEnd env).1.moved
         then ((pagerAppendBase env p ucs).moveEnd env).1.refresh env 0
         else ((pagerAppendBase env p ucs).moveEnd env).1.refresh env
                ((((pagerAppendBase env p ucs).moveEnd env).1.bottom env).toNat)) := by
  constructor
  · rw [Pager.append_unfold]
    show (((pagerAppendBase env p ucs).moveEnd env).1).content = _
    rw [Pager.moveEnd_fst, Pager.setPosition_content]
    rfl
  · rw [Pager.append_unfold, Pager.moveEnd_snd]
    set q := ((pagerAppendBase env p ucs).moveEnd env).1 with hq
    by_cases hm : q.moved
    · by_cases he : q.refresh env 0 = []
      · simp [hm, he, Pager.refresh_eq_nil_of_zero env q he]
      · simp [hm, he]
    · simp [hm]

theorem contentWrapLines_spec (env : Env) : ∀ lines : List Str,
    (∀ line ∈ lines, nonBlank line = true →
        IsWordWrap ((env.visibleWidth : Int) - 1) line
          (env.wrap line ((env.visibleWidth : Int) - 1))) →
    ∃ blocks : List (List Str),
      contentWrapLines env lines = blocks.flatten ∧
      List.Forall₂ (WrapBlockOK ((env.visibleWidth : Int) - 1)) lines blocks
  | [], _ => ⟨[], rfl, List.Forall₂.nil⟩
  | line :: rest, hw => by
      obtain ⟨bs, hb1, hb2⟩ :=
        contentWrapLines_spec env rest (fun l hl => hw l (List.mem_cons_of_mem _ hl))
      by_cases hnb : nonBlank line = true
      · refine ⟨env.wrap line ((env.visibleWidth : Int) - 1) :: bs, ?_, ?_⟩
        · simp [contentWrapLines, hnb, hb1]
        · refine List.Forall₂.cons ⟨fun hc => ?_, fun _ => ?_⟩ hb2
          · rw [hnb] at hc; cases hc
          · exact hw line (List.mem_cons_self _ _) hnb
      · refine ⟨[[]] :: bs, ?_, ?_⟩
        · simp [contentWrapLines, hnb, hb1]
        · exact List.Forall₂.cons ⟨fun _ => rfl, fun hc => absurd hc hnb⟩ hb2

/-- C7: given an external wrap primitive honouring its word-wrap contract
on the input's lines, the line-wrapping function maps each source line, in
order and dropping none, to a block of display lines: a blank source line
to exactly one empty line, a non-blank source line to one or more lines
each at most visible_width - 1 characters wide carrying exactly the source
line's words. -/
theorem content_wrap_spec (env : Env) (ucs : Str)
    (hw : ∀ line ∈ pySplitLines ucs, nonBlank line = true →
        IsWordWrap ((env.visibleWidth : Int) - 1) line
          (env.wrap line ((env.visibleWidth : Int) - 1))) :
    ∃ blocks : List (List Str),
      contentWrap env ucs = blocks.flatten ∧
      List.Forall₂ (WrapBlockOK ((env.visibleWidth : Int) - 1)) (pySplitLines ucs) blocks :=
  contentWrapLines_spec env (pySplitLines ucs) hw

/-- C7 witness: concrete evaluation on two word-lines around a blank line
under the test environment's wrap primitive. -/
theorem content_wrap_spec_witness :
    (∀ line ∈ pySplitLines wrapWitnessText, nonBlank line = true →
        IsWordWrap ((testEnv.visibleWidth : Int) - 1) line
          (testEnv.wrap line ((testEnv.visibleWidth : Int) - 1))) ∧
    (∃ blocks : List (List Str),
        contentWrap testEnv wrapWitnessText = blocks.flatten ∧
        List.Forall₂ (WrapBlockOK ((testEnv.visibleWidth : Int) - 1))
          (pySplitLines wrapWitnessText) blocks) :=
  ⟨by decide, content_wrap_spec testEnv wrapWitnessText (by decide)⟩
